import Mathlib

/-!
Verification of the normalized API-access and session layer of the
Mythos mobile client (React Native / TypeScript).

The TypeScript services are shallowly embedded as pure Lean functions.
Network and clock effects are made explicit: every service method takes
the outcome of its HTTP call (`Except ApiError T`) as a parameter and
returns the request(s) it issued, and functions that read the current
time (`new Date().toISOString()`) take the timestamp as a parameter.

The HTTP client wrapper (`api.service.ts`) and the session store are not
part of the provided sources; the small parts of them that matter here
(the error taxonomy, the query-parameter filtering, the token store
operations) are modelled from the specification and marked as such.
-/

set_option autoImplicit false

namespace Mythos

/-- Modelled from the spec: error taxonomy of the HTTP client wrapper
(`api.service.ts` is not among the provided sources).  `NetworkError`,
`TimeoutError`, `HttpStatusError` (carries status code and optional
message), `ValidationError` (caller-supplied invalid input). -/
inductive ApiError where
  | network
  | timeout
  | httpStatus (code : Nat) (msg : Option String)
  | validation (msg : String)
deriving DecidableEq, Repr

/-- HTTP methods used by the client. -/
inductive Method where
  | get
  | post
  | delete
deriving DecidableEq, Repr

/-- A query-parameter value as it appears in the TypeScript sources:
`string | number | undefined | null`. -/
inductive QueryVal where
  | str (s : String)
  | num (n : Nat)
  | undefined
  | null
deriving DecidableEq, Repr

/-- JavaScript string coercion of a defined, non-empty parameter value.
`none` exactly when the value is `undefined`, `null` or `''`. -/
def coerceParam : QueryVal → Option String
  | .str s => if s = "" then none else some s
  | .num n => some (toString n)
  | .undefined => none
  | .null => none

/-- Modelled from the spec: the HTTP client wrapper omits query
parameters whose value is `undefined`/`null`/empty string before the
request is sent, and string-coerces the rest (spec 4.2). -/
def cleanParams : List (String × QueryVal) → List (String × String)
  | [] => []
  | (k, v) :: rest =>
    match coerceParam v with
    | some s => (k, s) :: cleanParams rest
    | none => cleanParams rest

/-- An outgoing HTTP request: method, path, serialized query pairs and
(for POST) the raw body fields. -/
structure Request where
  method : Method
  path : String
  query : List (String × String)
  body : List (String × QueryVal)
deriving DecidableEq, Repr

/-- JavaScript `a || b` on two possibly-absent strings: `a` wins iff it
is present and non-empty. -/
def jsOrOpt (a b : Option String) : Option String :=
  match a with
  | some s => if s = "" then b else some s
  | none => b

/-- JavaScript `a || b` where `b` is a plain (default) string. -/
def jsOptStrOr (a : Option String) (b : String) : String :=
  match a with
  | some s => if s = "" then b else s
  | none => b

/-- JavaScript `a || b` on a possibly-absent number with default `b`
(`0` is falsy, so it is replaced by the default as well). -/
def jsOrNat (a : Option Nat) (b : Nat) : Nat :=
  match a with
  | some n => if n = 0 then b else n
  | none => b

/-- JavaScript `String.prototype.trim`: strip leading and trailing
whitespace (embedded over the character list so that it evaluates). -/
def jsTrim (s : String) : String :=
  String.mk (((s.data.dropWhile Char.isWhitespace).reverse.dropWhile
    Char.isWhitespace).reverse)

/-- Hexadecimal digit (uppercase), for percent-encoding. -/
def hexDigit (n : Nat) : Char :=
  if n < 10 then Char.ofNat (48 + n) else Char.ofNat (55 + n)

/-- UTF-8 bytes of a character, as natural numbers. -/
def utf8Bytes (c : Char) : List Nat :=
  let n := c.toNat
  if n < 128 then [n]
  else if n < 2048 then [192 + n / 64, 128 + n % 64]
  else if n < 65536 then [224 + n / 4096, 128 + (n / 64) % 64, 128 + n % 64]
  else [240 + n / 262144, 128 + (n / 4096) % 64, 128 + (n / 64) % 64, 128 + n % 64]

/-- Characters left unescaped by JavaScript `encodeURIComponent`. -/
def isUnescapedURI (c : Char) : Bool :=
  c.isAlphanum || c = '-' || c = '_' || c = '.' || c = '!' || c = '~' ||
    c = '*' || c = Char.ofNat 39 || c = '(' || c = ')'

/-- JavaScript `encodeURIComponent`: unreserved characters kept, all
others percent-encoded per UTF-8 byte. -/
def encodeURIComponent (s : String) : String :=
  String.join (s.data.map fun c =>
    if isUnescapedURI c then String.singleton c
    else String.join ((utf8Bytes c).map fun b =>
      String.mk ['%', hexDigit (b / 16), hexDigit (b % 16)]))

/-! ## Auth service (`auth.service.ts`) and Auth/Session controller
(`AuthContext.tsx`) -/

/-- The nested `user` object of `AuthResponse` (`auth.service.ts`). -/
structure AuthUser where
  id : Nat
  username : String
  email : String
  avatar : String
  role : Nat
  created_at : String
deriving DecidableEq, Repr

/-- The optional `data` payload of `AuthResponse`. -/
structure AuthData where
  token : Option String
  user : Option AuthUser
deriving DecidableEq, Repr

/-- Embeds `AuthResponse` from `auth.service.ts`. -/
structure AuthResponse where
  success : Bool
  message : Option String
  data : Option AuthData
deriving DecidableEq, Repr

/-- The `User` record held by `AuthContext.tsx`. -/
structure User where
  id : Nat
  username : String
  email : Option String
  role : Nat
  avatar : Option String
deriving DecidableEq, Repr

/-- Combined session state: the token held by the Session Store
(modelled from the spec, section 4.1: get/set/clear on a persistent
store, absence is a normal state) and the `user` state of the
controller. -/
structure AuthState where
  token : Option String
  user : Option User
deriving DecidableEq, Repr

/-- Embeds `isAuthenticated: !!user` from `AuthContext.tsx`. -/
def isAuthenticated (s : AuthState) : Bool :=
  s.user.isSome

namespace AuthService

/-- Embeds `AuthService.login`: POST `/auth/login`; if the wrapper call
succeeds and `response.data?.token` is truthy, store it via
`apiService.setToken`; return the response.  Errors from the wrapper
propagate. -/
def login (username password : String) (backend : Except ApiError AuthResponse)
    (s : AuthState) : Except ApiError AuthResponse × AuthState × List Request :=
  let req : Request :=
    { method := .post, path := "/auth/login", query := [],
      body := [("username", .str username), ("password", .str password)] }
  match backend with
  | .error e => (.error e, s, [req])
  | .ok r =>
    let s' :=
      match r.data with
      | some d =>
        match d.token with
        | some t => if t = "" then s else { s with token := some t }
        | none => s
      | none => s
    (.ok r, s', [req])

/-- Embeds `AuthService.logout`: the only effect is
`apiService.removeToken()`; no network request is issued.  The store
operation is modelled from the spec (section 4.1) as infallible. -/
def logout (s : AuthState) : AuthState × List Request :=
  ({ s with token := none }, [])

end AuthService

namespace AuthContext

/-- The `login` closure of `AuthContext.tsx`: call
`authService.login`; on success, if `response.data?.user` is present,
derive the identity (`email`/`avatar` coalesce to the empty string) and
`setUser`; on failure log and rethrow. -/
def login (username password : String) (backend : Except ApiError AuthResponse)
    (s : AuthState) : Except ApiError Unit × AuthState × List Request :=
  match AuthService.login username password backend s with
  | (.error e, s', reqs) => (.error e, s', reqs)
  | (.ok r, s', reqs) =>
    match r.data with
    | some d =>
      match d.user with
      | some u =>
        let userData : User :=
          { id := u.id, username := u.username,
            email := some (jsOptStrOr (some u.email) ""),
            role := u.role,
            avatar := some (jsOptStrOr (some u.avatar) "") }
        (.ok (), { s' with user := some userData }, reqs)
      | none => (.ok (), s', reqs)
    | none => (.ok (), s', reqs)

/-- The `logout` closure of `AuthContext.tsx`:
`try { await authService.logout(); setUser(null); } catch { log }`.
With the store operation modelled infallible (spec, section 4.1) the
catch branch is unreachable, so `setUser(null)` always runs and no
error ever surfaces to the caller. -/
def logout (s : AuthState) : AuthState × List Request :=
  let (s1, reqs) := AuthService.logout s
  ({ s1 with user := none }, reqs)

end AuthContext

/-! ## Book services.  The repository contains two revisions of
`book.service.ts`: the one under `src/services/book.service.ts`
(interpolating query strings directly into the URL) and a newer one
(shipped alongside `ranking.service.ts`) that builds queries through a
`buildQuery` helper.  Both are embedded. -/

/-- The nested `user` record of a `Book`. -/
structure BookUser where
  id : String
  username : String
  avatar_url : String
deriving DecidableEq, Repr

namespace BookService

/-- Embeds `Book` from `src/services/book.service.ts`. -/
structure Book where
  id : String
  title : String
  description : String
  cover_url : Option String
  tags : List String
  status : Nat
  category : Nat
  word_number : Nat
  read_count : Nat
  like_count : Nat
  comment_count : Nat
  created_at : String
  updated_at : String
  user : BookUser
deriving DecidableEq, Repr

/-- Pagination block of `BooksResponse` (`book.service.ts`). -/
structure BooksPagination where
  currentPage : Nat
  totalPages : Nat
  totalBooks : Nat
  limit : Nat
deriving DecidableEq, Repr

/-- Embeds `BooksResponse` from `src/services/book.service.ts`. -/
structure BooksResponse where
  success : Bool
  message : String
  data : List Book
  pagination : Option BooksPagination
deriving DecidableEq, Repr

/-- Embeds `BookService.getBooks(page = 1, limit = 10)`: GET
`/books?page=${page}&limit=${limit}`; the wrapper result is returned
as is. -/
def getBooks (page limit : Nat) (backend : Except ApiError BooksResponse) :
    Request × Except ApiError BooksResponse :=
  ({ method := .get, path := "/books",
     query := [("page", toString page), ("limit", toString limit)],
     body := [] }, backend)

/-- Embeds `BookService.searchBooks(query, page = 1, limit = 10)`: GET
`/books/search?q=${encodeURIComponent(query)}&page=${page}&limit=${limit}`.
The three parameters are interpolated directly into the URL (no
filtering), and the wrapper result is returned as is — there is no
try/catch in this method. -/
def searchBooks (query : String) (page limit : Nat)
    (backend : Except ApiError BooksResponse) :
    Request × Except ApiError BooksResponse :=
  ({ method := .get, path := "/books/search",
     query := [("q", encodeURIComponent query),
               ("page", toString page), ("limit", toString limit)],
     body := [] }, backend)

end BookService

/-- Embeds `QueryVal` of an optional string parameter (`undefined` when
absent). -/
def optStrVal : Option String → QueryVal
  | some s => .str s
  | none => .undefined

/-- Embeds `QueryVal` of an optional numeric parameter (`undefined` when
absent). -/
def optNatVal : Option Nat → QueryVal
  | some n => .num n
  | none => .undefined

namespace BookServiceV2

/-- Embeds `Book` from the newer `book.service.ts` revision. -/
structure Book where
  id : String
  title : String
  description : String
  cover_url : Option String
  tags : List String
  status : Nat
  category : Option Nat
  word_number : Nat
  read_count : Nat
  like_count : Nat
  comment_count : Nat
  created_at : String
  updated_at : String
  total_gem_count : Option Nat
  starred_count : Option Nat
  rating : Option Nat
  tagNames : Option (List String)
  categoryName : Option String
  user : BookUser
deriving DecidableEq, Repr

/-- Pagination block of the newer `BooksResponse` (both backend naming
conventions, every field optional). -/
structure BooksPagination where
  currentPage : Option Nat
  current_page : Option Nat
  totalPages : Option Nat
  total_pages : Option Nat
  totalBooks : Option Nat
  total_items : Option Nat
  limit : Option Nat
  per_page : Option Nat
deriving DecidableEq, Repr

/-- Embeds `BooksResponse` from the newer `book.service.ts` revision. -/
structure BooksResponse where
  success : Bool
  message : String
  data : List Book
  pagination : Option BooksPagination
deriving DecidableEq, Repr

/-- Embeds `GetBooksParams` from the newer `book.service.ts` revision. -/
structure GetBooksParams where
  page : Option Nat
  limit : Option Nat
  sort_by : Option String
  sort_direction : Option String
  category : Option String
  metric : Option String
  search : Option String
deriving DecidableEq, Repr

/-- The pairs appended to `URLSearchParams` by
`BookService.buildQuery`: entries whose value is `undefined`, `null`
or `''` are skipped, every other value is appended once,
string-coerced. -/
def buildQueryPairs : List (String × QueryVal) → List (String × String)
  | [] => []
  | (k, v) :: rest =>
    match coerceParam v with
    | some s => (k, s) :: buildQueryPairs rest
    | none => buildQueryPairs rest

/-- Embeds `BookService.getBooks(params)`: destructuring defaults
`page = 1`, `limit = 10`, then GET `/books` with the `buildQuery`-built
parameter set. -/
def getBooks (params : GetBooksParams) (backend : Except ApiError BooksResponse) :
    Request × Except ApiError BooksResponse :=
  let page := params.page.getD 1
  let limit := params.limit.getD 10
  ({ method := .get, path := "/books",
     query := buildQueryPairs
       [("page", .num page), ("limit", .num limit),
        ("sort_by", optStrVal params.sort_by),
        ("sort_direction", optStrVal params.sort_direction),
        ("category", optStrVal params.category),
        ("metric", optStrVal params.metric),
        ("search", optStrVal params.search)],
     body := [] }, backend)

/-- Embeds `BookService.searchBooks(query, page = 1, limit = 10)` (newer
revision): GET `/search` with params `{query, page, page_size}` passed
to the wrapper; no try/catch, the wrapper result is returned as is. -/
def searchBooks (query : String) (page limit : Nat)
    (backend : Except ApiError BooksResponse) :
    Request × Except ApiError BooksResponse :=
  ({ method := .get, path := "/search",
     query := cleanParams
       [("query", .str query), ("page", .num page), ("page_size", .num limit)],
     body := [] }, backend)

end BookServiceV2

/-! ## Ranking service (`ranking.service.ts`) -/

/-- Embeds `RankingBook` from `ranking.service.ts`. -/
structure RankingBook where
  id : Nat
  title : String
  author : String
  cover_image : Option String
  description : Option String
  category : Option String
  categoryName : Option String
  tags : Option (List (Nat ⊕ String))
  tagNames : Option (List String)
  word_count : Option Nat
  status : Option Nat
deriving DecidableEq, Repr

/-- Embeds `RankingItem` from `ranking.service.ts`. -/
structure RankingItem where
  rank : Nat
  book : RankingBook
  score : Int
  period : Option String
  metric : String
deriving DecidableEq, Repr

/-- Pagination block of the rankings responses. -/
structure RankPagination where
  current_page : Nat
  total_pages : Nat
  total_items : Nat
  per_page : Nat
deriving DecidableEq, Repr

/-- Embeds `period_info` of the book-rankings response. -/
structure PeriodInfo where
  type : String
  period : Option String
  metric : Option String
  available_periods : Option (List String)
deriving DecidableEq, Repr

/-- Embeds `BookRankingParams` from `ranking.service.ts` (every field
optional). -/
structure BookRankingParams where
  type : Option String
  period : Option String
  metric : Option String
  category : Option String
  word_count_min : Option Nat
  word_count_max : Option Nat
  page : Option Nat
  page_size : Option Nat
deriving DecidableEq, Repr

/-- Success payload of GET `/rankings/books`.  `data` is `Option`al so
that the `response.data || []` guard in the source is meaningful. -/
structure BookRankingsResponse where
  success : Bool
  data : Option (List RankingItem)
  pagination : RankPagination
  period_info : PeriodInfo
deriving DecidableEq, Repr

/-- What `RankingService.getBookRankings` returns to its caller. -/
structure BookRankingsResult where
  data : List RankingItem
  pagination : RankPagination
  period_info : PeriodInfo
deriving DecidableEq, Repr

/-- Embeds `HotRankingParams` from `ranking.service.ts`. -/
structure HotRankingParams where
  metrics : Option (List String)
  limit : Option Nat
deriving DecidableEq, Repr

/-- Success payload of GET `/rankings/hot`; the `Record<string,
RankingItem[]>` is embedded as an association list. -/
structure HotRankingsPayload where
  success : Bool
  data : Option (List (String × List RankingItem))
  generated_at : String
deriving DecidableEq, Repr

/-- Embeds `HotRankingsResponse` returned by `getHotRankings`. -/
structure HotRankingsResponse where
  data : List (String × List RankingItem)
  generated_at : String
deriving DecidableEq, Repr

namespace RankingService

/-- Embeds `RankingService.getBookRankings(params = {})`: build `queryParams`
with `||`-defaults (`type`→`all_time`, `metric`→`gems`, `page`→1,
`page_size`→10), delete the keys whose value is `undefined`, GET
`/rankings/books`; on success return `{data: response.data || [],
pagination, period_info}` unchanged, on any error log and return the
structurally valid fallback built from the params. -/
def getBookRankings (params : BookRankingParams)
    (backend : Except ApiError BookRankingsResponse) :
    Request × BookRankingsResult :=
  let queryParams : List (String × QueryVal) :=
    [("type", .str (jsOptStrOr params.type "all_time")),
     ("period", optStrVal params.period),
     ("metric", .str (jsOptStrOr params.metric "gems")),
     ("category", optStrVal params.category),
     ("word_count_min", optNatVal params.word_count_min),
     ("word_count_max", optNatVal params.word_count_max),
     ("page", .num (jsOrNat params.page 1)),
     ("page_size", .num (jsOrNat params.page_size 10))]
  -- `Object.keys(queryParams).forEach(... delete ... === undefined)`
  let queryParams := queryParams.filter (fun kv => kv.2 ≠ .undefined)
  let req : Request :=
    { method := .get, path := "/rankings/books",
      query := cleanParams queryParams, body := [] }
  (req,
   match backend with
   | .ok r =>
     { data := r.data.getD [], pagination := r.pagination,
       period_info := r.period_info }
   | .error _ =>
     { data := [],
       pagination :=
         { current_page := jsOrNat params.page 1, total_pages := 0,
           total_items := 0, per_page := jsOrNat params.page_size 10 },
       period_info :=
         { type := jsOptStrOr params.type "all_time",
           period := params.period,
           metric := some (jsOptStrOr params.metric "gems"),
           available_periods := none } })

/-- Embeds `RankingService.getHotRankings(params = {})`:
`metrics = params.metrics?.join(',') || 'gems,reading_index,stars,popularity'`,
`limit = params.limit || 6`, GET `/rankings/hot`; on success return
`{data: response.data || {}, generated_at}`, on any error log and
return `{data: {}, generated_at: new Date().toISOString()}`.  The
timestamp read is the explicit `now` parameter. -/
def getHotRankings (params : HotRankingParams) (now : String)
    (backend : Except ApiError HotRankingsPayload) :
    Request × HotRankingsResponse :=
  let metrics :=
    jsOptStrOr (params.metrics.map (String.intercalate ","))
      "gems,reading_index,stars,popularity"
  let limit := jsOrNat params.limit 6
  let req : Request :=
    { method := .get, path := "/rankings/hot",
      query := cleanParams [("metrics", .str metrics), ("limit", .num limit)],
      body := [] }
  (req,
   match backend with
   | .ok r => { data := r.data.getD [], generated_at := r.generated_at }
   | .error _ => { data := [], generated_at := now })

end RankingService

namespace DiscoverScreen

/-- The monthly-ranking mapping step of `loadDiscoverFeed`
(`DiscoverScreen.tsx`): `(monthly.data || []).map((item, index) =>
({...item, rank: index + 1}))`. -/
def mapMonthlyRanking (xs : List RankingItem) : List RankingItem :=
  xs.mapIdx fun i it => { it with rank := i + 1 }

end DiscoverScreen

/-! ## Reading-list service (`readingList.service.ts`) and the Library
screen's create-list handler (`LibraryScreen.tsx`) -/

/-- Embeds `ReadingList` from `readingList.service.ts`. -/
structure ReadingList where
  id : Nat
  name : String
  description : Option String
  coverUrl : Option String
  isPublic : Bool
  isSystem : Bool
  userId : Nat
  bookCount : Option Nat
  createdAt : String
  updatedAt : String
deriving DecidableEq, Repr

/-- The nested chapter reference of a `BookshelfItem`. -/
structure ChapterRef where
  id : Nat
  title : String
  chapter_number : Nat
deriving DecidableEq, Repr

/-- The heterogeneous `author` field of a raw bookshelf item, as the
backend may deliver it: absent, JSON `null` (for which JavaScript
`typeof` is `'object'`), a flat string, or a nested author object. -/
inductive AuthorField where
  | absent
  | jsNull
  | str (s : String)
  | obj (username name : Option String) (id : Option Nat) (avatar : Option String)
deriving DecidableEq, Repr

/-- A raw bookshelf item as received from the backend (`book: any` in
`transformBookshelfItem`): every known alias key, each possibly
absent. -/
structure RawBookshelfItem where
  id : Option Nat
  bookId : Option Nat
  bookTitle : Option String
  title : Option String
  bookCover : Option String
  cover : Option String
  author : AuthorField
  author_name : Option String
  authorUsername : Option String
  lastReadAt : Option String
  addedAt : Option String
  updatedAt : Option String
  createdAt : Option String
  progress : Option Nat
  readProgress : Option Nat
  status : Option Nat
  wordCount : Option Nat
  word_count : Option Nat
  chapterCount : Option Nat
  chapter_count : Option Nat
  lastReadChapter : Option ChapterRef
  last_read_chapter : Option ChapterRef
  currentChapter : Option ChapterRef
  current_chapter : Option ChapterRef
  author_id : Option Nat
  authorId : Option Nat
  author_avatar : Option String
  authorAvatar : Option String
deriving DecidableEq, Repr

/-- Embeds `BookshelfItem` from `readingList.service.ts` (the canonical shape
returned to the UI). -/
structure BookshelfItem where
  id : Nat
  bookId : Nat
  bookTitle : String
  bookCover : String
  author : String
  lastReadAt : String
  progress : Nat
  addedAt : String
  status : Nat
  wordCount : Nat
  chapterCount : Nat
  lastReadChapter : Option ChapterRef
  currentChapter : Option ChapterRef
  authorId : Option Nat
  authorAvatar : Option String
deriving DecidableEq, Repr

/-- Embeds `transformBookshelfItem` from `readingList.service.ts`.  `??` is
`Option.orElse`/`getD`; `||` additionally treats the empty string as
absent.  The two `new Date().toISOString()` defaults are the explicit
`now` parameter. -/
def transformBookshelfItem (now : String) (book : RawBookshelfItem) : BookshelfItem :=
  -- `typeof book?.author === 'object' ? book.author?.username || book.author?.name : book?.author`
  let author : Option String :=
    match book.author with
    | .obj u n _ _ => jsOrOpt u n
    | .jsNull => none
    | .str s => some s
    | .absent => none
  { id := (book.id <|> book.bookId).getD 0,
    bookId := (book.bookId <|> book.id).getD 0,
    bookTitle := (book.bookTitle <|> book.title).getD "Untitled",
    bookCover := (book.bookCover <|> book.cover).getD "",
    author := jsOptStrOr (jsOrOpt (jsOrOpt author book.author_name) book.authorUsername)
      "Unknown Author",
    lastReadAt := (book.lastReadAt <|> book.addedAt <|> book.updatedAt).getD now,
    progress := (book.progress <|> book.readProgress).getD 0,
    addedAt := (book.addedAt <|> book.createdAt).getD now,
    status := book.status.getD 0,
    wordCount := (book.wordCount <|> book.word_count).getD 0,
    chapterCount := (book.chapterCount <|> book.chapter_count).getD 0,
    lastReadChapter := book.lastReadChapter <|> book.last_read_chapter,
    currentChapter := book.currentChapter <|> book.current_chapter,
    authorId :=
      match book.author with
      | .obj _ _ i _ => i
      | .jsNull => none
      | _ => book.author_id <|> book.authorId,
    authorAvatar :=
      match book.author with
      | .obj _ _ _ a => a
      | .jsNull => none
      | _ => book.author_avatar <|> book.authorAvatar }

/-- Optional `{page?, limit?}` argument of the bookshelf reads. -/
structure PageLimitParams where
  page : Option Nat
  limit : Option Nat
deriving DecidableEq, Repr

/-- The loosely-typed pagination object of the bookshelf responses and
of the fallback `{total: 0, page: 1, limit: 20, pages: 0}`. -/
structure ShelfPagination where
  total : Nat
  page : Nat
  limit : Nat
  pages : Nat
deriving DecidableEq, Repr

/-- Success payload of GET `/reading-lists/starred-books`. -/
structure StarredBooksPayload where
  success : Bool
  books : Option (List RawBookshelfItem)
  pagination : Option ShelfPagination
deriving DecidableEq, Repr

/-- What `getStarredBooks` returns to its caller. -/
structure StarredBooksResult where
  books : List BookshelfItem
  pagination : ShelfPagination
deriving DecidableEq, Repr

/-- Success payload of POST `/reading-lists`
(`{success, data: {list}}`; the source reads `response.data.list ||
null`). -/
structure CreateListPayload where
  success : Bool
  list : Option ReadingList
deriving DecidableEq, Repr

namespace ReadingListService

/-- The `{total: 0, page: 1, limit: 20, pages: 0}` fallback
pagination. -/
def fallbackPagination : ShelfPagination :=
  { total := 0, page := 1, limit := 20, pages := 0 }

/-- Embeds `getStarredBooks(params?)`: GET `/reading-lists/starred-books`
forwarding `params` unchanged (no page/limit default is substituted;
when `params` is absent no query at all is sent); normalize each raw
book via `transformBookshelfItem`; on any error log and return
`{books: [], pagination: fallback}`. -/
def getStarredBooks (params : Option PageLimitParams) (now : String)
    (backend : Except ApiError StarredBooksPayload) :
    Request × StarredBooksResult :=
  let req : Request :=
    { method := .get, path := "/reading-lists/starred-books",
      query := cleanParams
        (match params with
         | none => []
         | some p => [("page", optNatVal p.page), ("limit", optNatVal p.limit)]),
      body := [] }
  (req,
   match backend with
   | .ok r =>
     { books := (r.books.getD []).map (transformBookshelfItem now),
       pagination := r.pagination.getD fallbackPagination }
   | .error _ => { books := [], pagination := fallbackPagination })

/-- Embeds `createReadingList(name, description?)`: POST `/reading-lists`
with `{name, description}` — no validation of `name` is performed, the
request is always issued; the catch block logs and rethrows, so errors
propagate. -/
def createReadingList (name : String) (description : Option String)
    (backend : Except ApiError CreateListPayload) :
    List Request × Except ApiError (Option ReadingList) :=
  let req : Request :=
    { method := .post, path := "/reading-lists", query := [],
      body := [("name", .str name), ("description", optStrVal description)] }
  ([req],
   match backend with
   | .ok r => .ok r.list
   | .error e => .error e)

/-- Embeds `deleteReadingList(listId)`: DELETE `/reading-lists/{id}`; returns
`true` on success, and the catch block logs and returns `false` — the
error is swallowed, not re-raised. -/
def deleteReadingList (listId : Nat) (backend : Except ApiError Unit) :
    Request × Except ApiError Bool :=
  let req : Request :=
    { method := .delete, path := "/reading-lists/" ++ toString listId,
      query := [], body := [] }
  (req,
   match backend with
   | .ok _ => .ok true
   | .error _ => .ok false)

/-- Embeds `addBookToList(listId, bookId)`: POST
`/reading-lists/{id}/books`; returns `true` on success, and the catch
block logs and rethrows — the error propagates. -/
def addBookToList (listId bookId : Nat) (backend : Except ApiError Unit) :
    Request × Except ApiError Bool :=
  let req : Request :=
    { method := .post, path := "/reading-lists/" ++ toString listId ++ "/books",
      query := [], body := [("bookId", .num bookId)] }
  (req,
   match backend with
   | .ok _ => .ok true
   | .error e => .error e)

/-- Embeds `removeBookFromList(listId, bookId)`: DELETE
`/reading-lists/{id}/books/{bookId}`; returns `true` on success, and
the catch block logs and returns `false` — the error is swallowed. -/
def removeBookFromList (listId bookId : Nat) (backend : Except ApiError Unit) :
    Request × Except ApiError Bool :=
  let req : Request :=
    { method := .delete,
      path := "/reading-lists/" ++ toString listId ++ "/books/" ++ toString bookId,
      query := [], body := [] }
  (req,
   match backend with
   | .ok _ => .ok true
   | .error _ => .ok false)

end ReadingListService

namespace LibraryScreen

/-- Outcome of the Library screen's create-list handler. -/
inductive CreateOutcome where
  | rejectedEmptyName
  | created
  | failed (e : ApiError)
deriving DecidableEq, Repr

/-- Embeds `handleCreateList` from `LibraryScreen.tsx`: if
`!newListName.trim()` show an error alert and return (no service call,
no request); otherwise call
`createReadingList(newListName.trim())` and alert success or
failure. -/
def handleCreateList (newListName : String)
    (backend : Except ApiError CreateListPayload) :
    CreateOutcome × List Request :=
  if jsTrim newListName = "" then (.rejectedEmptyName, [])
  else
    match ReadingListService.createReadingList (jsTrim newListName) none backend with
    | (reqs, .ok _) => (.created, reqs)
    | (reqs, .error e) => (.failed e, reqs)

end LibraryScreen

/-! ## Spec-side reference definitions and sample data -/

/-- First-match-wins evaluation of an ordered candidate list, skipping
absent and empty-string candidates, with a literal default.  Written
from the spec's words ("trying each known alias in a fixed priority
order and defaulting to a literal placeholder"), to be compared against
`transformBookshelfItem`. -/
def firstNonEmpty : List (Option String) → String → String
  | [], d => d
  | some s :: rest, d => if s = "" then firstNonEmpty rest d else s
  | none :: rest, d => firstNonEmpty rest d

/-- The spec's ordered author alias list: nested object's `username`,
nested object's `name`, flat `author` string, `author_name`,
`authorUsername`. -/
def specAuthorAliases (book : RawBookshelfItem) : List (Option String) :=
  [(match book.author with | .obj u _ _ _ => u | _ => none),
   (match book.author with | .obj _ n _ _ => n | _ => none),
   (match book.author with | .str s => some s | _ => none),
   book.author_name,
   book.authorUsername]

/-- The spec-side author coalescing: first non-empty alias, else the
literal placeholder. -/
def specAuthor (book : RawBookshelfItem) : String :=
  firstNonEmpty (specAuthorAliases book) "Unknown Author"

/-- A sample reading list (concrete data for witnesses). -/
def sampleList : ReadingList :=
  { id := 12, name := "Favorites", description := none, coverUrl := none,
    isPublic := false, isSystem := false, userId := 3, bookCount := some 0,
    createdAt := "2025-01-01", updatedAt := "2025-01-01" }

/-- A sample successful create-list payload. -/
def sampleCreatePayload : CreateListPayload :=
  { success := true, list := some sampleList }

/-- A sample ranking book, parameterized by id. -/
def sampleRankingBook (n : Nat) : RankingBook :=
  { id := n, title := "Book " ++ toString n, author := "Author " ++ toString n,
    cover_image := none, description := none, category := none,
    categoryName := none, tags := none, tagNames := none,
    word_count := none, status := none }

/-- A sample ranking item whose `rank` is the given value. -/
def sampleRankingItem (r : Nat) : RankingItem :=
  { rank := r, book := sampleRankingBook r, score := 100, period := none,
    metric := "stars" }

/-- The params of the spec scenario:
`{type:'monthly', metric:'gems', page_size:5}`. -/
def monthlyGemsParams : BookRankingParams :=
  { type := some "monthly", period := none, metric := some "gems",
    category := none, word_count_min := none, word_count_max := none,
    page := none, page_size := some 5 }

/-- A successful backend response carrying 3 ranking items whose
backend-assigned ranks are 7, 8, 9 and whose `period_info.metric` is
`'stars'`. -/
def threeItemResponse : BookRankingsResponse :=
  { success := true,
    data := some [sampleRankingItem 7, sampleRankingItem 8, sampleRankingItem 9],
    pagination := { current_page := 1, total_pages := 1, total_items := 3,
                    per_page := 5 },
    period_info := { type := "monthly", period := some "2025-09",
                     metric := some "stars", available_periods := none } }

/-- A `BookRankingParams` with every field omitted. -/
def noRankingParams : BookRankingParams :=
  { type := none, period := none, metric := none, category := none,
    word_count_min := none, word_count_max := none, page := none,
    page_size := none }

/-- A `GetBooksParams` with every field omitted. -/
def noGetBooksParams : BookServiceV2.GetBooksParams :=
  { page := none, limit := none, sort_by := none, sort_direction := none,
    category := none, metric := none, search := none }

/-- A raw bookshelf item with every field absent. -/
def emptyRawItem : RawBookshelfItem :=
  { id := none, bookId := none, bookTitle := none, title := none,
    bookCover := none, cover := none, author := .absent,
    author_name := none, authorUsername := none, lastReadAt := none,
    addedAt := none, updatedAt := none, createdAt := none,
    progress := none, readProgress := none, status := none,
    wordCount := none, word_count := none, chapterCount := none,
    chapter_count := none, lastReadChapter := none,
    last_read_chapter := none, currentChapter := none,
    current_chapter := none, author_id := none, authorId := none,
    author_avatar := none, authorAvatar := none }

/-- The initial (unauthenticated) controller state. -/
def authInit : AuthState := { token := none, user := none }

/-- Whether a login response body carries a usable (truthy) token:
`response.data?.token` is present and non-empty. -/
def respHasToken (r : AuthResponse) : Bool :=
  match r.data with
  | some d => match d.token with
    | some t => decide (t ≠ "")
    | none => false
  | none => false

/-- Whether a login response body carries a nested user object. -/
def respHasUser (r : AuthResponse) : Bool :=
  match r.data with
  | some d => d.user.isSome
  | none => false

/-- A successful login response carrying a token but no user object. -/
def tokenOnlyResponse : AuthResponse :=
  { success := true, message := none,
    data := some { token := some "jwt-abc", user := none } }

/-! ## Helper lemmas -/

/-- A key absent from the input map never appears among the built
query pairs. -/
theorem buildQueryPairs_key_not_mem {entries : List (String × QueryVal)} {k : String}
    (h : k ∉ entries.map Prod.fst) :
    k ∉ (BookServiceV2.buildQueryPairs entries).map Prod.fst := by
  induction entries with
  | nil => simp [BookServiceV2.buildQueryPairs]
  | cons e rest ih =>
    obtain ⟨k', v'⟩ := e
    simp only [List.map_cons, List.mem_cons, not_or] at h
    cases hc : coerceParam v' with
    | none => simpa [BookServiceV2.buildQueryPairs, hc] using ih h.2
    | some s =>
      simp only [BookServiceV2.buildQueryPairs, hc, List.map_cons, List.mem_cons, not_or]
      exact ⟨h.1, ih h.2⟩

/-- The specification of `buildQueryPairs` on a map with distinct
keys: a key whose value does not coerce never appears; any other key
appears exactly once, with its coerced value. -/
theorem buildQueryPairs_spec (entries : List (String × QueryVal)) :
    ∀ {k : String} {qv : QueryVal},
      (entries.map Prod.fst).Nodup → (k, qv) ∈ entries →
      ((coerceParam qv = none →
        ∀ s, (k, s) ∉ BookServiceV2.buildQueryPairs entries) ∧
       (∀ s, coerceParam qv = some s →
        (k, s) ∈ BookServiceV2.buildQueryPairs entries ∧
        ((BookServiceV2.buildQueryPairs entries).map Prod.fst).count k = 1)) := by
  induction entries with
  | nil =>
    intro k qv _ hmem
    cases hmem
  | cons e rest ih =>
    intro k qv hnd hmem
    obtain ⟨k', v'⟩ := e
    simp only [List.map_cons, List.nodup_cons] at hnd
    rcases List.mem_cons.mp hmem with heq | htl
    · injection heq with h1 h2
      subst h1
      subst h2
      constructor
      · intro hc s hmem'
        simp only [BookServiceV2.buildQueryPairs, hc] at hmem'
        exact buildQueryPairs_key_not_mem hnd.1
          (List.mem_map_of_mem Prod.fst hmem')
      · intro s hs
        constructor
        · simp [BookServiceV2.buildQueryPairs, hs]
        · simp [BookServiceV2.buildQueryPairs, hs, List.count_cons_self,
            List.count_eq_zero.mpr (buildQueryPairs_key_not_mem hnd.1)]
    · have hk' : k ≠ k' := by
        rintro rfl
        exact hnd.1 (List.mem_map_of_mem Prod.fst htl)
      have ih' := ih hnd.2 htl
      cases hc : coerceParam v' with
      | none =>
        constructor
        · intro h s
          simpa [BookServiceV2.buildQueryPairs, hc] using ih'.1 h s
        · intro s hs
          simpa [BookServiceV2.buildQueryPairs, hc] using ih'.2 s hs
      | some s0 =>
        constructor
        · intro h s hm
          simp only [BookServiceV2.buildQueryPairs, hc, List.mem_cons] at hm
          rcases hm with hm | hm
          · exact hk' (congrArg Prod.fst hm)
          · exact ih'.1 h s hm
        · intro s hs
          refine ⟨?_, ?_⟩
          · simp only [BookServiceV2.buildQueryPairs, hc, List.mem_cons]
            exact Or.inr (ih'.2 s hs).1
          · simp only [BookServiceV2.buildQueryPairs, hc, List.map_cons]
            rw [List.count_cons_of_ne hk']
            exact (ih'.2 s hs).2

/-- Non-emptiness: `firstNonEmpty` with a non-empty default never
yields the empty string. -/
theorem firstNonEmpty_ne_empty (l : List (Option String)) (d : String) (hd : d ≠ "") :
    firstNonEmpty l d ≠ "" := by
  induction l with
  | nil => simpa [firstNonEmpty] using hd
  | cons a rest ih =>
    cases a with
    | none => simpa [firstNonEmpty] using ih
    | some s => by_cases hs : s = "" <;> simp [firstNonEmpty, hs, ih]

/-- Folding one step of the JS `||` chain equals one step of the
spec-side first-match-wins list. -/
theorem jsOptStrOr_jsOrOpt (a b : Option String) (d : String) :
    jsOptStrOr (jsOrOpt a b) d = jsOptStrOr a (jsOptStrOr b d) := by
  cases a with
  | none => rfl
  | some s => by_cases hs : s = "" <;> simp [jsOrOpt, jsOptStrOr, hs]

/-- Unfolding: `firstNonEmpty` unfolds head-first through `jsOptStrOr`. -/
theorem firstNonEmpty_cons (a : Option String) (rest : List (Option String)) (d : String) :
    firstNonEmpty (a :: rest) d = jsOptStrOr a (firstNonEmpty rest d) := by
  cases a with
  | none => rfl
  | some s => by_cases hs : s = "" <;> simp [firstNonEmpty, jsOptStrOr, hs]

/-- Base case: `firstNonEmpty` on the empty candidate list is the default. -/
theorem firstNonEmpty_nil (d : String) : firstNonEmpty [] d = d := rfl

/-- JS `||` with an absent left operand. -/
theorem jsOrOpt_none_left (b : Option String) : jsOrOpt none b = b := rfl

/-- JS `||`-with-default with an absent left operand. -/
theorem jsOptStrOr_none (d : String) : jsOptStrOr none d = d := rfl

/-! ## Claims -/

/-- Claim C1: for every logout invocation the local Session Token is
cleared and the identity reset, leaving the controller unauthenticated.
In the source, `AuthService.logout` only calls
`apiService.removeToken()` — the logout path issues no network request
at all — so the "remote POST fails with NetworkError" scenario can
never block the local clearing (it cannot even occur), and no failure
is surfaced to the caller.  Proved unconditionally over every starting
state. -/
theorem logout_always_clears_local_state (s : AuthState) :
    (AuthContext.logout s).1.token = none ∧
    (AuthContext.logout s).1.user = none ∧
    isAuthenticated (AuthContext.logout s).1 = false ∧
    (AuthContext.logout s).2 = [] := by
  simp [AuthContext.logout, AuthService.logout, isAuthenticated]

/-- Claim C2, counterexample: `createReadingList('', ...)` does issue
the POST `/reading-lists` request (with the empty name in the body) and
succeeds — no `ValidationError` is raised and the request does reach
the HTTP layer. -/
theorem createReadingList_empty_name_posts_anyway :
    (ReadingListService.createReadingList "" none (.ok sampleCreatePayload)).1 =
      [{ method := .post, path := "/reading-lists", query := [],
         body := [("name", .str ""), ("description", .undefined)] }] ∧
    (ReadingListService.createReadingList "" none (.ok sampleCreatePayload)).2 =
      .ok (some sampleList) := by
  exact ⟨rfl, rfl⟩

/-- Claim C2, amended: the service itself performs no name validation
and always issues exactly one POST; the empty/whitespace-name guard
lives in `LibraryScreen.handleCreateList`, which rejects the input
before calling the service, so the UI path issues no request for an
empty or whitespace-only name. -/
theorem create_list_guard_only_in_ui (name : String) (desc : Option String)
    (backend : Except ApiError CreateListPayload) (h : jsTrim name = "") :
    (ReadingListService.createReadingList name desc backend).1.length = 1 ∧
    LibraryScreen.handleCreateList name backend =
      (LibraryScreen.CreateOutcome.rejectedEmptyName, []) := by
  refine ⟨rfl, ?_⟩
  simp [LibraryScreen.handleCreateList, h]

/-- Claim C2, witness for the amended theorem at the whitespace name
`"   "`. -/
theorem create_list_guard_only_in_ui_witness :
    (jsTrim "   " = "") ∧
    ((ReadingListService.createReadingList "   " none (.ok sampleCreatePayload)).1.length = 1 ∧
     LibraryScreen.handleCreateList "   " (.ok sampleCreatePayload) =
       (LibraryScreen.CreateOutcome.rejectedEmptyName, [])) :=
  ⟨by decide, create_list_guard_only_in_ui "   " none (.ok sampleCreatePayload) (by decide)⟩

/-- Claim C3, counterexample: both revisions of
`BookService.searchBooks` propagate a `NetworkError` from the HTTP
layer to the caller instead of returning an empty/default result. -/
theorem searchBooks_propagates_error_concrete :
    (BookService.searchBooks "dragons" 1 10 (.error .network)).2 =
      .error .network ∧
    (BookServiceV2.searchBooks "dragons" 1 10 (.error .network)).2 =
      .error .network :=
  ⟨rfl, rfl⟩

/-- Claim C3, amended: the book-search read has no try/catch — every
HTTP-layer error is re-raised unchanged to the caller (the Discover
screen catches it), and every success payload is returned unchanged. -/
theorem searchBooks_propagates_every_error (q : String) (p l : Nat) (e : ApiError)
    (resp : BookService.BooksResponse) (resp2 : BookServiceV2.BooksResponse) :
    (BookService.searchBooks q p l (.error e)).2 = .error e ∧
    (BookServiceV2.searchBooks q p l (.error e)).2 = .error e ∧
    (BookService.searchBooks q p l (.ok resp)).2 = .ok resp ∧
    (BookServiceV2.searchBooks q p l (.ok resp2)).2 = .ok resp2 :=
  ⟨rfl, rfl, rfl, rfl⟩

/-- Claim C4, counterexample: `deleteReadingList` and
`removeBookFromList` swallow a `NetworkError` and convert it into the
success/failure boolean `false` instead of re-raising it. -/
theorem delete_and_remove_swallow_errors_concrete :
    (ReadingListService.deleteReadingList 7 (.error .network)).2 = .ok false ∧
    (ReadingListService.removeBookFromList 7 42 (.error .network)).2 = .ok false ∧
    (ReadingListService.deleteReadingList 7 (.error .network)).2 ≠
      .error .network :=
  ⟨rfl, rfl, fun h => Except.noConfusion h⟩

/-- Claim C4, amended: among the reading-list mutations only
`addBookToList` re-raises the underlying error; `deleteReadingList`
and `removeBookFromList` catch it, log, and return `false`, converting
failure into a boolean; all three return `true` on success. -/
theorem mutation_error_policy_per_method (l b : Nat) (e : ApiError) :
    (ReadingListService.addBookToList l b (.error e)).2 = .error e ∧
    (ReadingListService.deleteReadingList l (.error e)).2 = .ok false ∧
    (ReadingListService.removeBookFromList l b (.error e)).2 = .ok false ∧
    (ReadingListService.addBookToList l b (.ok ())).2 = .ok true ∧
    (ReadingListService.deleteReadingList l (.ok ())).2 = .ok true ∧
    (ReadingListService.removeBookFromList l b (.ok ())).2 = .ok true :=
  ⟨rfl, rfl, rfl, rfl, rfl, rfl⟩

/-- Claim C5, counterexample: against a backend returning 3 items whose
ranks are 7, 8, 9 and whose `period_info.metric` is `'stars'`,
`getBookRankings({type:'monthly', metric:'gems', page_size:5})` returns
the ranks verbatim — not re-numbered 1..3 — and the backend's
`period_info` verbatim, so `period_info.metric` need not be `'gems'`. -/
theorem getBookRankings_returns_backend_ranks_verbatim :
    ((RankingService.getBookRankings monthlyGemsParams
        (.ok threeItemResponse)).2.data.map RankingItem.rank = [7, 8, 9]) ∧
    ((RankingService.getBookRankings monthlyGemsParams
        (.ok threeItemResponse)).2.data.map RankingItem.rank ≠ [1, 2, 3]) ∧
    ((RankingService.getBookRankings monthlyGemsParams
        (.ok threeItemResponse)).2.period_info.metric = some "stars") := by
  refine ⟨rfl, ?_, rfl⟩
  intro h
  rw [show (RankingService.getBookRankings monthlyGemsParams
      (.ok threeItemResponse)).2.data.map RankingItem.rank = [7, 8, 9] from rfl] at h
  simp at h

/-- Claim C5, amended: on a successful response carrying 3 items the
service returns the items and `period_info` verbatim (`data` of length
3); the re-numbering of `rank` to 1..3 in array order is applied
afterwards by the Discover screen's mapping step
(`rank: index + 1`). -/
theorem monthly_ranking_renumbered_by_screen (resp : BookRankingsResponse)
    (items : List RankingItem) (hd : resp.data = some items)
    (h3 : items.length = 3) :
    (RankingService.getBookRankings monthlyGemsParams (.ok resp)).2.data = items ∧
    (RankingService.getBookRankings monthlyGemsParams (.ok resp)).2.period_info =
      resp.period_info ∧
    (DiscoverScreen.mapMonthlyRanking
        (RankingService.getBookRankings monthlyGemsParams
          (.ok resp)).2.data).length = 3 ∧
    (DiscoverScreen.mapMonthlyRanking
        (RankingService.getBookRankings monthlyGemsParams
          (.ok resp)).2.data).map RankingItem.rank = [1, 2, 3] := by
  obtain ⟨a, b, c, rfl⟩ := List.length_eq_three.mp h3
  have hdata : (RankingService.getBookRankings monthlyGemsParams
      (.ok resp)).2.data = [a, b, c] := by
    simp [RankingService.getBookRankings, hd]
  refine ⟨hdata, rfl, ?_, ?_⟩ <;>
    simp [hdata, DiscoverScreen.mapMonthlyRanking]

/-- Claim C5, witness for the amended theorem at the concrete
three-item response. -/
theorem monthly_ranking_renumbered_witness :
    (threeItemResponse.data =
      some [sampleRankingItem 7, sampleRankingItem 8, sampleRankingItem 9]) ∧
    ([sampleRankingItem 7, sampleRankingItem 8, sampleRankingItem 9].length = 3) ∧
    ((DiscoverScreen.mapMonthlyRanking
        (RankingService.getBookRankings monthlyGemsParams
          (.ok threeItemResponse)).2.data).map RankingItem.rank = [1, 2, 3]) :=
  ⟨rfl, rfl,
   (monthly_ranking_renumbered_by_screen threeItemResponse
     [sampleRankingItem 7, sampleRankingItem 8, sampleRankingItem 9]
     rfl rfl).2.2.2⟩

/-- Claim C6, counterexample: `BookService.searchBooks` interpolates
its parameters straight into the URL, so calling it with the empty
query string puts the key `q` with an empty-string value into the
outgoing parameter set. -/
theorem searchBooks_sends_empty_query_key :
    (BookService.searchBooks "" 1 10 (.error .network)).1.query =
      [("q", ""), ("page", "1"), ("limit", "10")] ∧
    ("q", "") ∈ (BookService.searchBooks "" 1 10 (.error .network)).1.query := by
  refine ⟨rfl, ?_⟩
  rw [show (BookService.searchBooks "" 1 10 (.error .network)).1.query =
    [("q", ""), ("page", "1"), ("limit", "10")] from rfl]
  exact List.mem_cons_self _ _

/-- Claim C6, amended: for the `buildQuery` helper, keys whose value is
`undefined`, `null` or the empty string never appear among the built
pairs, and every other key appears exactly once with its
string-coerced value; `BookService.searchBooks`, by contrast,
interpolates `q`/`page`/`limit` directly into the URL with no such
filtering (so an empty query still appears as an empty-valued `q`
key). -/
theorem query_building_filters_and_coerces
    (entries : List (String × QueryVal)) (k : String) (qv : QueryVal)
    (hnd : (entries.map Prod.fst).Nodup) (hmem : (k, qv) ∈ entries) :
    (coerceParam qv = none →
      ∀ s, (k, s) ∉ BookServiceV2.buildQueryPairs entries) ∧
    (∀ s, coerceParam qv = some s →
      (k, s) ∈ BookServiceV2.buildQueryPairs entries ∧
      ((BookServiceV2.buildQueryPairs entries).map Prod.fst).count k = 1) ∧
    (∀ q p l backend, (BookService.searchBooks q p l backend).1.query =
      [("q", encodeURIComponent q), ("page", toString p),
       ("limit", toString l)]) := by
  refine ⟨(buildQueryPairs_spec entries hnd hmem).1,
    (buildQueryPairs_spec entries hnd hmem).2, fun _ _ _ _ => rfl⟩

/-- Claim C7, counterexample: `getStarredBooks` invoked with no
explicit page argument sends no query parameters at all — the outgoing
request carries neither `page = 1` nor any page-size key. -/
theorem starred_books_no_default_page :
    (ReadingListService.getStarredBooks none "2025-01-01T00:00:00.000Z"
        (.error .network)).1.query = [] ∧
    (¬ ∃ v, ("page", v) ∈ (ReadingListService.getStarredBooks none
        "2025-01-01T00:00:00.000Z" (.error .network)).1.query) := by
  refine ⟨rfl, ?_⟩
  rintro ⟨v, hv⟩
  rw [show (ReadingListService.getStarredBooks none "2025-01-01T00:00:00.000Z"
      (.error .network)).1.query = [] from rfl] at hv
  cases hv

/-- Claim C7, amended: the ranking and book list calls substitute
`page = 1` and size 10 into the parameter set before the request is
sent; the bookshelf read `getStarredBooks` forwards the caller's
`page`/`limit` unchanged and sends no paging keys when they are
omitted (its page-size-20 figure appears only in the fallback
pagination object applied to the response). -/
theorem pagination_defaults_substituted_before_request
    (b1 : Except ApiError BookRankingsResponse)
    (b2 : Except ApiError BookServiceV2.BooksResponse)
    (b3 : Except ApiError StarredBooksPayload) (now : String) :
    (RankingService.getBookRankings noRankingParams b1).1.query =
      [("type", "all_time"), ("metric", "gems"), ("page", "1"),
       ("page_size", "10")] ∧
    (BookServiceV2.getBooks noGetBooksParams b2).1.query =
      [("page", "1"), ("limit", "10")] ∧
    (ReadingListService.getStarredBooks none now b3).1.query = [] :=
  ⟨rfl, rfl, rfl⟩

/-- Claim C8, counterexample: two calls of `getHotRankings` with the
same arguments against a backend failing both times return different
values, because the fallback stamps `generated_at` with the current
time of each call. -/
theorem hot_rankings_failing_twice_differs :
    (RankingService.getHotRankings ⟨none, none⟩ "2025-01-01T00:00:00.000Z"
        (.error .network)).2 ≠
    (RankingService.getHotRankings ⟨none, none⟩ "2025-01-01T00:00:00.001Z"
        (.error .network)).2 := by
  intro h
  have := congrArg HotRankingsResponse.generated_at h
  rw [show (RankingService.getHotRankings ⟨none, none⟩
      "2025-01-01T00:00:00.000Z" (.error .network)).2.generated_at =
      "2025-01-01T00:00:00.000Z" from rfl,
    show (RankingService.getHotRankings ⟨none, none⟩
      "2025-01-01T00:00:00.001Z" (.error .network)).2.generated_at =
      "2025-01-01T00:00:00.001Z" from rfl] at this
  exact absurd this (by decide)

/-- Claim C8, amended: the fallback results of the failing reads depend
only on the call's arguments — `getBookRankings` and `getStarredBooks`
return identical defaults on every failing call whatever the error or
the current time; `getHotRankings` is the exception: only its `data`
field (the empty record) is call-independent, `generated_at` being the
per-call timestamp. -/
theorem fallback_reads_idempotent_except_timestamp
    (p : BookRankingParams) (q : HotRankingParams)
    (sp : Option PageLimitParams) (e1 e2 : ApiError) (t1 t2 u1 u2 : String) :
    (RankingService.getBookRankings p (.error e1)).2 =
      (RankingService.getBookRankings p (.error e2)).2 ∧
    (ReadingListService.getStarredBooks sp t1 (.error e1)).2 =
      (ReadingListService.getStarredBooks sp t2 (.error e2)).2 ∧
    (RankingService.getHotRankings q u1 (.error e1)).2.data =
      (RankingService.getHotRankings q u2 (.error e2)).2.data :=
  ⟨rfl, rfl, rfl⟩

/-- Claim C6, witness for the amended theorem at a concrete parameter
map containing one kept key, one `undefined` key and one
empty-string key. -/
theorem query_building_filters_witness :
    (([("a", QueryVal.str "x"), ("b", QueryVal.undefined),
       ("c", QueryVal.str "")].map Prod.fst).Nodup) ∧
    (("a", QueryVal.str "x") ∈
      [("a", QueryVal.str "x"), ("b", QueryVal.undefined),
       ("c", QueryVal.str "")]) ∧
    (("a", "x") ∈ BookServiceV2.buildQueryPairs
      [("a", QueryVal.str "x"), ("b", QueryVal.undefined),
       ("c", QueryVal.str "")] ∧
     ((BookServiceV2.buildQueryPairs
       [("a", QueryVal.str "x"), ("b", QueryVal.undefined),
        ("c", QueryVal.str "")]).map Prod.fst).count "a" = 1) :=
  ⟨by decide, by decide,
   (query_building_filters_and_coerces
     [("a", QueryVal.str "x"), ("b", QueryVal.undefined), ("c", QueryVal.str "")]
     "a" (QueryVal.str "x") (by decide) (by decide)).2.1 "x" (by decide)⟩

/-- Claim C9: `transformBookshelfItem` coalesces the author through the
spec's fixed priority order — nested `username`, nested `name`, flat
`author` string, `author_name`, `authorUsername` — with the literal
placeholder `"Unknown Author"` when none match (empty strings are
skipped by `||`); the result is always non-empty, and `progress`
defaults to `0` when neither `progress` nor `readProgress` is
present. -/
theorem transform_coalesces_author_and_progress (now : String)
    (book : RawBookshelfItem) :
    (transformBookshelfItem now book).author = specAuthor book ∧
    (transformBookshelfItem now book).author ≠ "" ∧
    (book.progress = none → book.readProgress = none →
      (transformBookshelfItem now book).progress = 0) := by
  have hEq : (transformBookshelfItem now book).author = specAuthor book := by
    cases h : book.author <;>
      simp [transformBookshelfItem, specAuthor, specAuthorAliases, h,
        firstNonEmpty_cons, firstNonEmpty_nil, jsOptStrOr_jsOrOpt,
        jsOrOpt_none_left, jsOptStrOr_none]
  refine ⟨hEq, ?_, ?_⟩
  · rw [hEq]
    exact firstNonEmpty_ne_empty _ _ (by decide)
  · intro h1 h2
    simp [transformBookshelfItem, h1, h2]

/-- Claim C9, witness at the all-absent raw item: the author is the
literal placeholder and the progress defaults to 0. -/
theorem transform_coalesces_witness :
    (emptyRawItem.progress = none ∧ emptyRawItem.readProgress = none) ∧
    (transformBookshelfItem "2025-01-01" emptyRawItem).author =
      specAuthor emptyRawItem ∧
    (transformBookshelfItem "2025-01-01" emptyRawItem).author =
      "Unknown Author" ∧
    (transformBookshelfItem "2025-01-01" emptyRawItem).progress = 0 := by
  have h := transform_coalesces_author_and_progress "2025-01-01" emptyRawItem
  exact ⟨⟨rfl, rfl⟩, h.1, by decide, h.2.2 rfl rfl⟩

/-- Claim C10: after a successful login HTTP call from the
unauthenticated state, the token ends up stored iff the response body
carries a (truthy, i.e. non-empty) token, and the identity is set —
equivalently `isAuthenticated` — iff the response body carries a user
object; in particular a response with a token but no user leaves a
stored token while the controller stays unauthenticated. -/
theorem login_token_iff_and_identity_iff (u p : String) (r : AuthResponse) :
    ((AuthContext.login u p (.ok r) authInit).2.1.token.isSome =
      respHasToken r) ∧
    ((AuthContext.login u p (.ok r) authInit).2.1.user.isSome =
      respHasUser r) ∧
    (isAuthenticated (AuthContext.login u p (.ok r) authInit).2.1 =
      respHasUser r) ∧
    (respHasToken r = true → respHasUser r = false →
      (AuthContext.login u p (.ok r) authInit).2.1.token ≠ none ∧
      isAuthenticated (AuthContext.login u p (.ok r) authInit).2.1 = false) := by
  obtain ⟨succ, msg, data⟩ := r
  cases data with
  | none =>
    simp [AuthContext.login, AuthService.login, respHasToken, respHasUser,
      isAuthenticated, authInit]
  | some d =>
    obtain ⟨tok, usr⟩ := d
    cases tok with
    | none =>
      cases usr <;>
        simp [AuthContext.login, AuthService.login, respHasToken, respHasUser,
          isAuthenticated, authInit]
    | some t =>
      by_cases ht : t = "" <;> cases usr <;>
        simp [AuthContext.login, AuthService.login, respHasToken, respHasUser,
          isAuthenticated, authInit, ht]

/-- Claim C10, witness: a success response carrying only a token
leaves a stored token while `isAuthenticated` stays false. -/
theorem login_token_only_witness :
    (respHasToken tokenOnlyResponse = true) ∧
    (respHasUser tokenOnlyResponse = false) ∧
    ((AuthContext.login "u" "p" (.ok tokenOnlyResponse) authInit).2.1.token ≠
      none ∧
     isAuthenticated
       (AuthContext.login "u" "p" (.ok tokenOnlyResponse) authInit).2.1 =
       false) :=
  ⟨by decide, by decide,
   (login_token_iff_and_identity_iff "u" "p" tokenOnlyResponse).2.2.2
     (by decide) (by decide)⟩

end Mythos
